import Mathlib

/-!
Shallow embedding of the `text_to_image` runtime (src/text_to_image/runtime.py
and src/text_to_image/model.py): the model cache, its device bookkeeping, the
CUDA out-of-memory retry loop, LoRA overlay application and teardown, scheduler
scoping, weight downloading, and the seed handling of `generate_image`.

External collaborators (torch, diffusers, psutil, hashlib, urllib) are modelled
as explicit parameters: `vm` readings stand for `psutil.virtual_memory()`,
`md5hex` for `hashlib.md5(...).hexdigest()`, `up` for `urlparse(...).path`,
`net` for the outcome of an actual HTTP transfer, and pipeline methods
(`load_lora_weights`, `fuse_lora`, ...) as state transformers on a `Pipe`
record.  Python exceptions are values of `PyErr`; fallible code returns
`Except PyErr _`.
-/

set_option autoImplicit false

namespace TextToImage

/-! ### Character-level string helpers (executable models of the Python string
operations used by the runtime) -/

/-- `chars_has_pref p l` is true when `p` is a prefix of `l`. -/
def chars_has_pref : List Char → List Char → Bool
  | [], _ => true
  | _ :: _, [] => false
  | p :: ps, c :: cs => p == c && chars_has_pref ps cs

/-- Substring containment on character lists (Python's `pat in s`). -/
def chars_contains_sub (pat : List Char) : List Char → Bool
  | [] => chars_has_pref pat []
  | c :: cs => chars_has_pref pat (c :: cs) || chars_contains_sub pat cs

/-- Python's `pat in s` on strings. -/
def str_contains_sub (s pat : String) : Bool :=
  chars_contains_sub pat.toList s.toList

/-- Python's `s.startswith(p)`. -/
def str_starts_with (s p : String) : Bool :=
  chars_has_pref p.toList s.toList

/-- Python's `s.endswith(p)`. -/
def str_ends_with (s p : String) : Bool :=
  chars_has_pref p.toList.reverse s.toList.reverse

/-- Python's `s.split(sep)` for a one-character separator (always returns a
non-empty list of groups). -/
def chars_split_on (sep : Char) (l : List Char) : List (List Char) :=
  l.foldr
    (fun c acc =>
      if c == sep then [] :: acc
      else
        match acc with
        | [] => [[c]]
        | g :: gs => (c :: g) :: gs)
    [[]]

/-- `s.split("/")[-1]`, also used as the model of `pathlib.Path(s).name`
(the final slash-separated component). -/
def last_path_component (s : String) : String :=
  String.mk (((chars_split_on '/' s.toList).getLast?).getD [])

/-- Python's `s.strip(".")`: remove leading and trailing dots. -/
def strip_dots (s : String) : String :=
  String.mk (((s.toList.dropWhile (· == '.')).reverse.dropWhile (· == '.')).reverse)

/-- Python's `s.replace(".", "_")` (single-character pattern, so a char map). -/
def replace_dots (s : String) : String :=
  String.mk (s.toList.map (fun c => if c == '.' then '_' else c))

/-- Characters of a file name with its `pathlib` suffix removed: everything up
to the last `'.'`, where a dot at index 0 alone does not start a suffix. -/
def chars_stem : List Char → List Char
  | [] => []
  | c0 :: rest =>
    if rest.contains '.' then
      c0 :: (((rest.reverse.dropWhile (· != '.')).drop 1).reverse)
    else c0 :: rest

/-- `pathlib.Path(p).with_suffix(suffix)`: replace (or append, when the final
component has no suffix) the extension of the final path component. -/
def path_with_suffix (p suffix : String) : String :=
  let cs := p.toList
  let name := (cs.reverse.takeWhile (· != '/')).reverse
  let dirPart := (cs.reverse.dropWhile (· != '/')).reverse
  String.mk (dirPart ++ chars_stem name ++ suffix.toList)

/-! ### Python exceptions -/

/-- A raised Python exception: its class name and its `str(...)` text. -/
structure PyErr where
  kind : String
  msg : String
deriving DecidableEq, Repr

/-- `ValueError("Can't load non-safetensor model files.")`
(runtime.py line 129). -/
def cant_load_ckpt_error : PyErr :=
  ⟨"ValueError", "Can't load non-safetensor model files."⟩

/-- `ValueError` raised when the HTTP request fails (runtime.py line 156). -/
def download_failed_error (url : String) : PyErr :=
  ⟨"ValueError", "Couldn't download weights from the given URL: " ++ url⟩

/-- `ValueError` raised on a size mismatch after download (runtime.py line 165). -/
def size_mismatch_error : PyErr :=
  ⟨"ValueError", "Downloaded file is not the same size as the remote file."⟩

/-- `RuntimeError("Not enough CUDA memory to complete the operation.")`
(runtime.py line 370). -/
def not_enough_cuda_memory_error : PyErr :=
  ⟨"RuntimeError", "Not enough CUDA memory to complete the operation."⟩

/-- The `AttributeError` raised when `.startswith` is called on a `LoraWeight`
object rather than a `str` (runtime.py line 108, reached from line 181). -/
def attribute_error_startswith : PyErr :=
  ⟨"AttributeError", "LoraWeight object has no attribute startswith"⟩

/-- `KeyError` from `SUPPORTED_SCHEDULERS[scheduler_name]` on an unknown name
(runtime.py line 302). -/
def scheduler_key_error (name : String) : PyErr :=
  ⟨"KeyError", name⟩

/-- `ValueError` for an incompatible scheduler (runtime.py lines 311-314). -/
def incompatible_scheduler_error (name : String) (compatibles : List String) : PyErr :=
  ⟨"ValueError",
    "The scheduler " ++ name ++ " is not compatible with this model.\n" ++
      "Compatible schedulers: " ++ String.intercalate ", " compatibles⟩

/-! ### The model cache data model -/

/-- `model_key = (model_name, arch)` (runtime.py line 216). -/
abbrev ModelKey := String × String

/-- How `get_model` materialised the pipeline: `from_single_file` for
`.ckpt` / `.safetensors` references, `from_pretrained` otherwise
(runtime.py lines 218-233). -/
inductive PipeSource where
  | singleFile
  | pretrained
deriving DecidableEq, Repr

/-- The `Model` dataclass (runtime.py lines 51-63).  `device` models
`pipeline.device.type`; `pipeline` is an identity token for the underlying
pipeline object (used by the `ignored_models` membership test); `source`
records which loader produced the pipeline. -/
structure Model where
  device : String
  last_cache_hit : Nat
  pipeline : Nat := 0
  source : PipeSource := .pretrained
deriving DecidableEq, Repr

/-- `GlobalRuntime.models`: insertion-ordered mapping from key to entry,
modelled as an association list in insertion order. -/
abbrev CacheState := List (ModelKey × Model)

/-- Dictionary lookup `self.models[key]` (as an `Option`). -/
def lookup_model : CacheState → ModelKey → Option Model
  | [], _ => none
  | (k, m) :: rest, key => if k = key then some m else lookup_model rest key

/-- `del self.models[key]` / `self.models.pop(key, None)`. -/
def erase_key (st : CacheState) (key : ModelKey) : CacheState :=
  st.filter (fun km => !(km.1 == key))

/-- `model.pipeline = model.pipeline.to("cpu")`: the entry's pipeline now
reports device `"cpu"` (runtime.py lines 412-413). -/
def set_device_cpu (st : CacheState) (key : ModelKey) : CacheState :=
  st.map (fun km => if km.1 == key then (km.1, { km.2 with device := "cpu" }) else km)

/-- `self.models[model_id].last_cache_hit` as used by the sort key
(runtime.py line 383). -/
def hit_of (st : CacheState) (key : ModelKey) : Nat :=
  ((lookup_model st key).map Model.last_cache_hit).getD 0

/-- One insertion step of a stable ascending sort by `last_cache_hit`. -/
def insert_by_hit (st : CacheState) (x : ModelKey) : List ModelKey → List ModelKey
  | [] => [x]
  | y :: ys => if hit_of st y ≤ hit_of st x then y :: insert_by_hit st x ys else x :: y :: ys

/-- `models.sort(key=lambda model_id: self.models[model_id].last_cache_hit)`:
stable ascending sort (Python `list.sort`). -/
def sort_by_hit (st : CacheState) : List ModelKey → List ModelKey
  | [] => []
  | x :: xs => insert_by_hit st x (sort_by_hit st xs)

/-- `GlobalRuntime.get_loaded_models_by_device` (runtime.py lines 372-384):
keys of entries on `device` whose pipeline is not in `ignored_models`, in
insertion order, then sorted ascending by `last_cache_hit`. -/
def get_loaded_models_by_device (st : CacheState) (device : String)
    (ignored_models : List Nat) : List ModelKey :=
  sort_by_hit st
    ((st.filter (fun km =>
        km.2.device == device && !(ignored_models.contains km.2.pipeline))).map (·.1))

/-! ### RAM headroom check and `offload_model_to_cpu` -/

/-- `RAM_BUFFER_PERCENTAGE = 1 - 0.75` (runtime.py line 48). -/
def RAM_BUFFER_PERCENTAGE : Rat := 1 - 3 / 4

/-- `is_ram_buffer_full` (runtime.py lines 389-394): a `psutil.virtual_memory()`
reading is `(available, total)`; the buffer is full when
`available / total < RAM_BUFFER_PERCENTAGE`, written here by
cross-multiplication (`RAM_BUFFER_PERCENTAGE = 1/4`) to stay executable over
`Nat`; `ram_buffer_cross_multiplied` proves the two forms agree whenever
`total > 0`. -/
def is_ram_buffer_full (memory : Nat × Nat) : Bool :=
  decide (4 * memory.1 < memory.2)

theorem ram_buffer_cross_multiplied (available total : Nat) (ht : 0 < total) :
    is_ram_buffer_full (available, total) = true ↔
      (available : Rat) / (total : Rat) < RAM_BUFFER_PERCENTAGE := by
  have ht' : (0 : Rat) < (total : Rat) := by exact_mod_cast ht
  simp only [is_ram_buffer_full, decide_eq_true_eq, RAM_BUFFER_PERCENTAGE]
  rw [div_lt_iff₀ ht']
  constructor
  · intro h
    have h' : ((4 * available : Nat) : Rat) < (total : Rat) := by exact_mod_cast h
    push_cast at h'
    nlinarith
  · intro h
    have h' : ((4 * available : Nat) : Rat) < (total : Rat) := by push_cast; nlinarith
    exact_mod_cast h'

/-- The `while is_ram_buffer_full()` loop of `offload_model_to_cpu`
(runtime.py lines 396-413).  `vm i` is the `i`-th `psutil.virtual_memory()`
reading.  `modelsRev` holds the CPU-resident candidate list *reversed*, so
Python's `models.pop()` (remove the last element of the ascending-sorted
list) is head/tail here. -/
def offload_loop (vm : Nat → Nat × Nat) : Nat → List ModelKey → CacheState → ModelKey → CacheState
  | i, modelsRev, st, model_id =>
    if is_ram_buffer_full (vm i) then
      match modelsRev with
      | [] => erase_key st model_id
      | lru_model_id :: rest =>
        offload_loop vm (i + 1) rest (erase_key st lru_model_id) model_id
    else set_device_cpu st model_id

/-- `GlobalRuntime.offload_model_to_cpu` (runtime.py lines 386-413). -/
def offload_model_to_cpu (vm : Nat → Nat × Nat) (st : CacheState)
    (model_id : ModelKey) : CacheState :=
  offload_loop vm 0 (get_loaded_models_by_device st "cpu" []).reverse st model_id

/-! ### The CUDA OOM retry loop (`execute_on_cuda`) -/

/-- The fixed OOM signature substrings `__cuda_oom_errors`
(runtime.py lines 353-356). -/
def cuda_oom_errors : List String :=
  ["CUDA out of memory", "INTERNAL ASSERT FAILED"]

/-- The retry condition: the error was caught by `except RuntimeError` and
`any(error_str in str(error) for error_str in __cuda_oom_errors)`
(runtime.py lines 350-358). -/
def is_cuda_oom (e : PyErr) : Bool :=
  e.kind == "RuntimeError" && cuda_oom_errors.any (fun s => str_contains_sub e.msg s)

instance {ε α : Type} [DecidableEq ε] [DecidableEq α] : DecidableEq (Except ε α) := fun x y =>
  match x, y with
  | .ok a, .ok b =>
    if h : a = b then .isTrue (by rw [h]) else .isFalse (fun heq => h (by injection heq))
  | .error a, .error b =>
    if h : a = b then .isTrue (by rw [h]) else .isFalse (fun heq => h (by injection heq))
  | .ok _, .error _ => .isFalse (fun heq => by injection heq)
  | .error _, .ok _ => .isFalse (fun heq => by injection heq)

/-- Outcome of one `execute_on_cuda` invocation: the returned value or raised
error, the cache afterwards, how many times `function()` was invoked, and the
demotion victims in order. -/
structure ExecOutcome (α : Type) where
  result : Except PyErr α
  state : CacheState
  calls : Nat
  demoted : List ModelKey
deriving DecidableEq, Repr

/-- The `while first_try or cached_models` loop of `execute_on_cuda`
(runtime.py lines 344-370).  `work n` is the outcome of the `n`-th invocation
of `function()`; `vm d` supplies the memory readings for the `d`-th demotion's
`offload_model_to_cpu` call.  `cachedRev` holds `cached_models` *reversed*, so
Python's `cached_models.pop()` (remove the last, most-recently-used element of
the ascending-sorted list) is head/tail here.  `torch.cuda.empty_cache()` has
no observable effect on the modelled state. -/
def exec_loop {α : Type} (work : Nat → Except PyErr α) (vm : Nat → Nat → Nat × Nat) :
    CacheState → List ModelKey → Bool → Nat → List ModelKey → ExecOutcome α
  | st, cachedRev, firstTry, calls, demoted =>
    if firstTry || !cachedRev.isEmpty then
      match work calls with
      | .ok v => ⟨.ok v, st, calls + 1, demoted⟩
      | .error e =>
        if is_cuda_oom e then
          match cachedRev with
          | [] => ⟨.error e, st, calls + 1, demoted⟩
          | target_model_id :: rest =>
            exec_loop work vm
              (offload_model_to_cpu (vm demoted.length) st target_model_id)
              rest false (calls + 1) (demoted ++ [target_model_id])
        else ⟨.error e, st, calls + 1, demoted⟩
    else ⟨.error not_enough_cuda_memory_error, st, calls, demoted⟩

/-- `GlobalRuntime.execute_on_cuda` (runtime.py lines 333-370). -/
def execute_on_cuda {α : Type} (work : Nat → Except PyErr α) (vm : Nat → Nat → Nat × Nat)
    (ignored_models : List Nat) (st : CacheState) : ExecOutcome α :=
  exec_loop work vm st (get_loaded_models_by_device st "cuda" ignored_models).reverse true 0 []

/-! ### Concrete runs of the retry loop and of `offload_model_to_cpu` -/

/-- A raised `RuntimeError` whose text matches the first OOM signature. -/
def cuda_oom_example_error : PyErr :=
  ⟨"RuntimeError", "CUDA out of memory. Tried to allocate 20.00 MiB"⟩

/-- Memory readings with 75% of host RAM available: the buffer is never full. -/
def vm_plenty : Nat → Nat → Nat × Nat := fun _ _ => (3, 4)

/-- A cache with two evictable CUDA-resident entries: `model-a` was used at
time 1 (the least recently used) and `model-b` at time 2. -/
def two_cuda_models : CacheState :=
  [(("model-a", "sd"), { device := "cuda", last_cache_hit := 1, pipeline := 1 }),
   (("model-b", "sd"), { device := "cuda", last_cache_hit := 2, pipeline := 2 })]

/-- Work that raises a CUDA OOM error on every attempt. -/
def always_cuda_oom : Nat → Except PyErr Nat := fun _ => .error cuda_oom_example_error

/-- A cache with a single evictable CUDA-resident entry. -/
def one_cuda_model : CacheState :=
  [(("model-a", "sd"), { device := "cuda", last_cache_hit := 1, pipeline := 1 })]

/-- Work that raises a CUDA OOM error on the first attempt and would succeed
on any later attempt. -/
def oom_once_then_ok : Nat → Except PyErr Nat := fun n =>
  if n == 0 then .error cuda_oom_example_error else .ok 42

/-- C1: `execute_on_cuda` is claimed to demote the least-recently-used
evictable CUDA entry on each OOM retry.  On a cache whose evictable CUDA
entries are `model-a` (last access 1, the LRU) and `model-b` (last access 2),
the first demotion victim is `model-b`: `get_loaded_models_by_device` sorts
ascending by `last_cache_hit` and `cached_models.pop()` takes the *last*
element, the most-recently-used one — contradicting the code's own comment
("we'll pop the model with the oldest cache hit") and the claim. -/
theorem c1_first_demotion_is_most_recently_used :
    (execute_on_cuda always_cuda_oom vm_plenty [] two_cuda_models).demoted.head? =
        some ("model-b", "sd")
      ∧ get_loaded_models_by_device two_cuda_models "cuda" [] =
        [("model-a", "sd"), ("model-b", "sd")]
      ∧ hit_of two_cuda_models ("model-a", "sd") = 1
      ∧ hit_of two_cuda_models ("model-b", "sd") = 2 := by decide

/-- C2: with `k = 1` evictable entry and work that OOMs once and would succeed
on a second attempt, `execute_on_cuda` is claimed to succeed within `k`
retries (and to fail with ResourceExhausted only after exactly `k` retries).
In fact the loop condition `while first_try or cached_models` is re-checked
*after* the last entry has been popped, so the code demotes the entry and then
gives up without ever retrying: one single call, zero retries, and the
ResourceExhausted error — even though `work 1` would have returned 42. -/
theorem c2_gives_up_without_final_retry :
    oom_once_then_ok 1 = .ok 42
      ∧ execute_on_cuda oom_once_then_ok vm_plenty [] one_cuda_model =
        ⟨.error not_enough_cuda_memory_error,
         [(("model-a", "sd"), { device := "cpu", last_cache_hit := 1, pipeline := 1 })],
         1, [("model-a", "sd")]⟩ := by decide

/-- If, at any point of the retry loop, the next invocation of the work raises
an error not classified as CUDA OOM, the loop returns exactly that error with
no further call and no further demotion.  `j` counts the attempts already
guaranteed to OOM; the reachability hypothesis says attempt `calls + j` is
actually made (the first attempt always is; later ones need enough entries
left to pop). -/
theorem exec_loop_propagates_non_oom {α : Type} (work : Nat → Except PyErr α)
    (vm : Nat → Nat → Nat × Nat) :
    ∀ (j : Nat) (cachedRev : List ModelKey) (st : CacheState) (firstTry : Bool)
      (calls : Nat) (demoted : List ModelKey) (e : PyErr),
      ((j = 0 ∧ (firstTry = true ∨ cachedRev ≠ [])) ∨ j < cachedRev.length) →
      (∀ i, i < j → ∃ ei, work (calls + i) = Except.error ei ∧ is_cuda_oom ei = true) →
      work (calls + j) = Except.error e →
      is_cuda_oom e = false →
      ∃ st', exec_loop work vm st cachedRev firstTry calls demoted =
        ⟨Except.error e, st', calls + j + 1, demoted ++ cachedRev.take j⟩ := by
  intro j
  induction j with
  | zero =>
    intro cachedRev st firstTry calls demoted e hreach hpre he hoom
    have hcond : (firstTry || !cachedRev.isEmpty) = true := by
      rcases hreach with ⟨-, h | h⟩ | h
      · simp [h]
      · simp [List.isEmpty_iff, h]
      · cases cachedRev with
        | nil => simp at h
        | cons c cs => simp
    rw [Nat.add_zero] at he
    refine ⟨st, ?_⟩
    rw [exec_loop]
    simp [hcond, he, hoom]
  | succ j ih =>
    intro cachedRev st firstTry calls demoted e hreach hpre he hoom
    obtain ⟨c, cs, rfl⟩ : ∃ c cs, cachedRev = c :: cs := by
      rcases hreach with ⟨h, -⟩ | h
      · exact absurd h (Nat.succ_ne_zero j)
      · cases cachedRev with
        | nil => simp at h
        | cons c cs => exact ⟨c, cs, rfl⟩
    obtain ⟨e0, he0, hoom0⟩ := hpre 0 (Nat.succ_pos j)
    rw [Nat.add_zero] at he0
    have hlen : j < cs.length := by
      rcases hreach with ⟨h, -⟩ | h
      · exact absurd h (Nat.succ_ne_zero j)
      · simpa using Nat.lt_of_succ_lt_succ (by simpa using h)
    obtain ⟨st', hst'⟩ :=
      ih cs (offload_model_to_cpu (vm demoted.length) st c) false (calls + 1)
        (demoted ++ [c]) e (Or.inr hlen)
        (fun i hi => by
          obtain ⟨ei, hei, hoomi⟩ := hpre (i + 1) (Nat.succ_lt_succ hi)
          rw [show calls + (i + 1) = calls + 1 + i by omega] at hei
          exact ⟨ei, hei, hoomi⟩)
        (by rw [show calls + 1 + j = calls + (j + 1) by omega]; exact he)
        hoom
    rw [show calls + 1 + j + 1 = calls + (j + 1) + 1 by omega,
      show (demoted ++ [c]) ++ cs.take j = demoted ++ (c :: cs).take (j + 1) by
        simp [List.take_succ_cons]] at hst'
    refine ⟨st', ?_⟩
    rw [exec_loop]
    simp only [List.isEmpty_cons, Bool.not_false, Bool.or_true, if_true, he0, hoom0,
      if_pos rfl]
    exact hst'

/-- C5: an error raised by the wrapped work whose text matches none of the
fixed OOM signature substrings is propagated to the caller unmodified, and no
demotion and no retry happen for it: if the first `j` attempts OOMed (each was
followed by one demotion) and attempt `j` raises a non-matching error, the
invocation ends immediately with exactly that error, having made `j + 1` calls
and demoted exactly the `j` earlier victims. -/
theorem execute_on_cuda_propagates_non_oom {α : Type} (work : Nat → Except PyErr α)
    (vm : Nat → Nat → Nat × Nat) (ignored_models : List Nat) (st : CacheState)
    (j : Nat) (e : PyErr)
    (hreach : j = 0 ∨ j < (get_loaded_models_by_device st "cuda" ignored_models).length)
    (hpre : ∀ i, i < j → ∃ ei, work i = Except.error ei ∧ is_cuda_oom ei = true)
    (he : work j = Except.error e)
    (hsig : ∀ s ∈ cuda_oom_errors, str_contains_sub e.msg s = false) :
    ∃ st', execute_on_cuda work vm ignored_models st =
      ⟨Except.error e, st', j + 1,
        ((get_loaded_models_by_device st "cuda" ignored_models).reverse).take j⟩ := by
  have hany : cuda_oom_errors.any (fun s => str_contains_sub e.msg s) = false := by
    simp only [List.any_eq_false]
    intro s hs
    simp [hsig s hs]
  have hoom : is_cuda_oom e = false := by simp [is_cuda_oom, hany]
  have h := exec_loop_propagates_non_oom work vm j
    (get_loaded_models_by_device st "cuda" ignored_models).reverse st true 0 [] e
    (by
      rcases hreach with h | h
      · exact Or.inl ⟨h, Or.inl rfl⟩
      · exact Or.inr (by simpa using h))
    (fun i hi => by rw [Nat.zero_add]; exact hpre i hi)
    (by rw [Nat.zero_add]; exact he)
    hoom
  simpa [execute_on_cuda] using h

/-- A raised error that is not a CUDA OOM signal. -/
def value_error_example : PyErr := ⟨"ValueError", "some other failure"⟩

/-- Work that raises a non-OOM error on every attempt. -/
def always_value_error : Nat → Except PyErr Nat := fun _ => .error value_error_example

/-- Witness for C5: on a cache with two CUDA entries, a `ValueError` from the
first attempt comes back unmodified after exactly one call and no demotion. -/
theorem execute_on_cuda_propagates_non_oom_witness :
    (∀ s ∈ cuda_oom_errors, str_contains_sub value_error_example.msg s = false)
      ∧ ∃ st', execute_on_cuda always_value_error vm_plenty [] two_cuda_models =
          ⟨Except.error value_error_example, st', 1, []⟩ := by
  refine ⟨by decide, ?_⟩
  have h := execute_on_cuda_propagates_non_oom always_value_error vm_plenty []
    two_cuda_models 0 value_error_example (Or.inl rfl)
    (fun i hi => absurd hi (Nat.not_lt_zero i)) rfl (by decide)
  simpa using h

/-- A cache with a CUDA-resident target and two host-resident entries:
`host-a` was used at time 1 (the least recently used), `host-b` at time 2. -/
def one_cuda_two_host : CacheState :=
  [(("target", "sd"), { device := "cuda", last_cache_hit := 5, pipeline := 3 }),
   (("host-a", "sd"), { device := "cpu", last_cache_hit := 1, pipeline := 1 }),
   (("host-b", "sd"), { device := "cpu", last_cache_hit := 2, pipeline := 2 })]

/-- Memory readings: only 10% of host RAM is available at the first check,
50% from then on (one host discard restores the headroom). -/
def vm_tight_once : Nat → Nat × Nat := fun i => if i == 0 then (10, 100) else (50, 100)

/-- C6: when host headroom is insufficient, `offload_model_to_cpu` is claimed
to discard host-tier entries least-recently-used-first.  With host entries
`host-a` (last access 1, the LRU) and `host-b` (last access 2), the discarded
entry is `host-b`: the candidate list is sorted ascending by `last_cache_hit`
and `models.pop()` takes the *last*, most-recently-used element (bound to a
variable named `lru_model_id`).  The remaining behaviour matches the claim:
after the discard restores headroom the target is moved to the host tier and
kept in the cache. -/
theorem c6_host_discard_is_most_recently_used_first :
    offload_model_to_cpu vm_tight_once one_cuda_two_host ("target", "sd") =
        [(("target", "sd"), { device := "cpu", last_cache_hit := 5, pipeline := 3 }),
         (("host-a", "sd"), { device := "cpu", last_cache_hit := 1, pipeline := 1 })]
      ∧ hit_of one_cuda_two_host ("host-a", "sd") = 1
      ∧ hit_of one_cuda_two_host ("host-b", "sd") = 2 := by decide

/-! ### Pipelines, schedulers and the scoped scheduler override -/

/-- The keyword arguments a `SUPPORTED_SCHEDULERS` entry passes to
`scheduler_cls.from_config` (runtime.py lines 31-45). -/
structure SchedKwargs where
  use_karras_sigmas : Bool := false
  algorithm_type : String := ""
deriving DecidableEq, Repr

/-- A scheduler instance: its class name, the config it was built from, the
keyword arguments it was built with, and the compatible classes its class
declares (`pipe.scheduler.compatibles`, as class names). -/
structure Sched where
  clsName : String
  config : Nat := 0
  kwargs : SchedKwargs := {}
  compatibles : List String := []
deriving DecidableEq, Repr

/-- A leased pipeline object: its active scheduler and its LoRA-related state
(which adapters are loaded, which are active with which weights, and whether
they are fused into the base weights). -/
structure Pipe where
  scheduler : Sched
  loadedAdapters : List String := []
  activeAdapters : List String := []
  adapterWeights : List Rat := []
  fused : Bool := false
deriving DecidableEq, Repr

/-- `SUPPORTED_SCHEDULERS` (runtime.py lines 31-45): display name to
`(scheduler class name, scheduler kwargs)`. -/
def SUPPORTED_SCHEDULERS : List (String × String × SchedKwargs) :=
  [("DPM++ 2M", "DPMSolverMultistepScheduler", {}),
   ("DPM++ 2M Karras", "DPMSolverMultistepScheduler", { use_karras_sigmas := true }),
   ("DPM++ 2M SDE", "DPMSolverMultistepScheduler", { algorithm_type := "sde-dpmsolver++" }),
   ("DPM++ 2M SDE Karras", "DPMSolverMultistepScheduler",
     { algorithm_type := "sde-dpmsolver++", use_karras_sigmas := true }),
   ("Euler", "EulerDiscreteScheduler", {}),
   ("Euler A", "EulerAncestralDiscreteScheduler", {}),
   ("LCM", "LCMScheduler", {})]

/-- `SUPPORTED_SCHEDULERS[scheduler_name]` as an `Option`. -/
def lookup_scheduler (name : String) : Option (String × SchedKwargs) :=
  (SUPPORTED_SCHEDULERS.find? (fun entry => entry.1 == name)).map (·.2)

/-- `GlobalRuntime.change_scheduler` (runtime.py lines 292-324) as a state
transformer.  `from_config` models `scheduler_cls.from_config` (a diffusers
collaborator) building a fresh scheduler instance from a class name, the
current scheduler's config, and the override kwargs.  `body` is the scoped
block; it returns its result (or raised error) together with the pipeline as
it left it.  The `finally` clause restores the original scheduler instance on
both outcomes of `body`. -/
def change_scheduler {α : Type} (from_config : String → SchedKwargs → Nat → Sched)
    (pipe : Pipe) (scheduler_name : Option String)
    (body : Pipe → Except PyErr α × Pipe) : Except PyErr α × Pipe :=
  match scheduler_name with
  | none => body pipe
  | some name =>
    match lookup_scheduler name with
    | none => (.error (scheduler_key_error name), pipe)
    | some (scheduler_cls_name, scheduler_kwargs) =>
      if !(pipe.scheduler.compatibles.contains scheduler_cls_name)
          && scheduler_cls_name != "LCMScheduler" then
        (.error (incompatible_scheduler_error name pipe.scheduler.compatibles), pipe)
      else
        let original_scheduler := pipe.scheduler
        let stepped := body
          { pipe with
            scheduler := from_config scheduler_cls_name scheduler_kwargs pipe.scheduler.config }
        (stepped.1, { stepped.2 with scheduler := original_scheduler })

/-- C3: for a named scheduler that is found and passes the compatibility
check, the pipeline's original scheduler instance is restored on scope exit
on every path — whatever the scoped body did to the pipeline and whether it
returned a value or raised. -/
theorem change_scheduler_restores_original {α : Type}
    (from_config : String → SchedKwargs → Nat → Sched) (pipe : Pipe) (name : String)
    (clsName : String) (kwargs : SchedKwargs) (body : Pipe → Except PyErr α × Pipe)
    (hlook : lookup_scheduler name = some (clsName, kwargs))
    (hcompat : pipe.scheduler.compatibles.contains clsName = true ∨ clsName = "LCMScheduler") :
    (change_scheduler from_config pipe (some name) body).2.scheduler = pipe.scheduler := by
  have hcond : (!(pipe.scheduler.compatibles.contains clsName)
      && clsName != "LCMScheduler") = false := by
    rcases hcompat with h | h
    · rw [h]; rfl
    · subst h; simp
  simp only [change_scheduler, hlook, hcond]
  simp

/-- Scheduler compatibility list declaring the Euler class. -/
def euler_capable_pipe : Pipe :=
  { scheduler :=
      { clsName := "PNDMScheduler", config := 7,
        compatibles := ["PNDMScheduler", "EulerDiscreteScheduler"] } }

/-- A `from_config` model for the witness: builds a fresh instance of the
requested class from the given config and kwargs. -/
def from_config_example : String → SchedKwargs → Nat → Sched :=
  fun clsName kwargs config => { clsName := clsName, config := config, kwargs := kwargs }

/-- A scoped body that swaps the scheduler itself and then raises. -/
def scheduler_clobbering_body : Pipe → Except PyErr Nat × Pipe :=
  fun pipe => (.error value_error_example, { pipe with scheduler := { clsName := "Garbage" } })

/-- Witness for C3: the `Euler` override on a compatible pipeline restores the
original scheduler even though the body replaced it and raised. -/
theorem change_scheduler_restores_original_witness :
    lookup_scheduler "Euler" = some ("EulerDiscreteScheduler", {})
      ∧ euler_capable_pipe.scheduler.compatibles.contains "EulerDiscreteScheduler" = true
      ∧ (change_scheduler from_config_example euler_capable_pipe (some "Euler")
          scheduler_clobbering_body).2.scheduler = euler_capable_pipe.scheduler := by
  refine ⟨by decide, by decide, ?_⟩
  exact change_scheduler_restores_original from_config_example euler_capable_pipe "Euler"
    "EulerDiscreteScheduler" {} scheduler_clobbering_body (by decide) (Or.inl (by decide))

/-! ### LoRA overlays: `merge_and_apply_loras` and the `load_model` scope -/

/-- The `LoraWeight` pydantic model (runtime.py lines 66-82): a weight
reference and a scale in `[0, 1]`. -/
structure LoraWeight where
  path : String
  scale : Rat := 1
deriving DecidableEq, Repr

/-- A Python value flowing into `download_lora_weight_if_needed`: either a
`str`, or a `LoraWeight` object (what the comprehension at runtime.py line 181
actually passes, since it iterates over `loras` itself). -/
inductive PyVal where
  | str (s : String)
  | obj (w : LoraWeight)
deriving DecidableEq, Repr

/-- `GlobalRuntime.download_lora_weight_if_needed` (runtime.py lines 106-113)
applied to a dynamic argument.  On a `str` it either resolves a remote
reference (`resolve` stands for `str(self.download_to(..., LORA_WEIGHTS_DIR,
extension="safetensors"))`) or returns a local path unchanged; on a
`LoraWeight` object the attribute access `lora_weight.startswith` raises
`AttributeError`. -/
def download_lora_weight_if_needed (resolve : String → String) :
    PyVal → Except PyErr String
  | .str lora_weight =>
    if str_starts_with lora_weight "https://" || str_starts_with lora_weight "http://" then
      .ok (resolve lora_weight)
    else .ok lora_weight
  | .obj _ => .error attribute_error_startswith

/-- A Python list comprehension over a fallible element expression: evaluates
left to right and propagates the first raised error. -/
def map_comprehension {α β : Type} (f : α → Except PyErr β) : List α → Except PyErr (List β)
  | [] => .ok []
  | x :: xs =>
    match f x with
    | .error e => .error e
    | .ok y => (map_comprehension f xs).map (fun ys => y :: ys)

/-- `pipe.load_lora_weights(lora_path, adapter_name=adapter_name)`: the
adapter is now loaded in the pipeline under its name. -/
def load_lora_weights (pipe : Pipe) (lora_path adapter_name : String) : Pipe :=
  { pipe with loadedAdapters := pipe.loadedAdapters ++ [adapter_name] }

/-- `pipe.set_adapters(adapter_names=..., adapter_weights=...)`. -/
def set_adapters (pipe : Pipe) (adapter_names : List String)
    (adapter_weights : List Rat) : Pipe :=
  { pipe with activeAdapters := adapter_names, adapterWeights := adapter_weights }

/-- `pipe.fuse_lora()`. -/
def fuse_lora (pipe : Pipe) : Pipe := { pipe with fused := true }

/-- `pipe.unfuse_lora()`. -/
def unfuse_lora (pipe : Pipe) : Pipe := { pipe with fused := false }

/-- `pipe.unload_lora_weights()`. -/
def unload_lora_weights (pipe : Pipe) : Pipe := { pipe with loadedAdapters := [] }

/-- Observable pipeline operations performed by `merge_and_apply_loras`, in
order. -/
inductive LoraOp where
  | load (lora_path adapter_name : String)
  | setAdapters (adapter_names : List String) (adapter_weights : List Rat)
  | fuse
deriving DecidableEq, Repr

/-- `GlobalRuntime.merge_and_apply_loras` (runtime.py lines 174-195).  The
first comprehension iterates over `loras` itself (line 181), passing each
`LoraWeight` object — not its `path` — to `download_lora_weight_if_needed`,
so its dynamic argument is `PyVal.obj`.  Returns the resulting pipeline (or
the raised error) together with the trace of pipeline operations performed. -/
def merge_and_apply_loras (resolve : String → String) (pipe : Pipe)
    (loras : List LoraWeight) : Except PyErr Pipe × List LoraOp :=
  match map_comprehension (download_lora_weight_if_needed resolve) (loras.map PyVal.obj) with
  | .error e => (.error e, [])
  | .ok lora_paths =>
    let adapter_names := lora_paths.map (fun p => replace_dots (last_path_component p))
    let lora_scales := loras.map LoraWeight.scale
    let triples := lora_paths.zip (lora_scales.zip adapter_names)
    let pipe1 := triples.foldl (fun p t => load_lora_weights p t.1 t.2.2) pipe
    (.ok (fuse_lora (set_adapters pipe1 adapter_names lora_scales)),
      triples.map (fun t => LoraOp.load t.1 t.2.2)
        ++ [LoraOp.setAdapters adapter_names lora_scales, LoraOp.fuse])

/-- C7: `merge_and_apply_loras` is claimed to load every overlay's weights,
then set all scales in one call, then fuse once.  In fact, for every non-empty
overlay list, the very first comprehension passes the `LoraWeight` object
itself (not its `path` string) to `download_lora_weight_if_needed`, whose
`lora_weight.startswith("https://")` raises `AttributeError` — so the call
fails before any weight is loaded, any scale set, or any fuse performed. -/
theorem merge_and_apply_loras_raises_before_any_op (resolve : String → String)
    (pipe : Pipe) (lw : LoraWeight) (rest : List LoraWeight) :
    merge_and_apply_loras resolve pipe (lw :: rest) =
      (.error attribute_error_startswith, []) := rfl

/-- `lookup_model` never finds a key just removed by `erase_key`. -/
theorem lookup_model_erase_key (st : CacheState) (key : ModelKey) :
    lookup_model (erase_key st key) key = none := by
  induction st with
  | nil => rfl
  | cons km rest ih =>
    simp only [erase_key] at *
    rw [List.filter_cons]
    by_cases h : km.1 = key
    · simp [h, ih]
    · simpa [lookup_model, h] using ih

/-- The `with change_scheduler(...)` body of `load_model` (runtime.py lines
273-290): the `try` applies the overlays (when any) and yields to the scoped
body; the `finally` reverses them — and if the reversal raises, pops the
owning cache entry instead (`self.models.pop((model_name, arch), None)`).
`unfuse_raises` says whether `pipe.unfuse_lora()` /
`pipe.set_adapters(adapter_names=[])` raises; the teardown's
`set_adapters(adapter_names=[])` leaves the default (empty) weights. -/
def load_model_scope {α : Type} (resolve : String → String) (st : CacheState)
    (model_name arch : String) (loras : List LoraWeight) (pipe : Pipe)
    (body : Pipe → Except PyErr α × Pipe) (unfuse_raises : Bool) :
    Except PyErr α × CacheState × Pipe :=
  let attempt : Except PyErr α × Pipe :=
    if loras.isEmpty then body pipe
    else
      match merge_and_apply_loras resolve pipe loras with
      | (.error e, _) => (.error e, pipe)
      | (.ok pipe1, _) => body pipe1
  if loras.isEmpty then (attempt.1, st, attempt.2)
  else if unfuse_raises then
    (attempt.1, erase_key st (model_name, arch), attempt.2)
  else
    (attempt.1, st, unload_lora_weights (set_adapters (unfuse_lora attempt.2) [] []))

/-- C4: when overlays were in play and the scope-exit reversal raises, the
owning cache entry `(model_name, arch)` has been removed from the model cache
by the end of the call — whatever the scoped body did or returned. -/
theorem load_model_scope_teardown_failure_evicts {α : Type} (resolve : String → String)
    (st : CacheState) (model_name arch : String) (loras : List LoraWeight) (pipe : Pipe)
    (body : Pipe → Except PyErr α × Pipe) (hloras : loras ≠ []) :
    lookup_model
      (load_model_scope resolve st model_name arch loras pipe body true).2.1
      (model_name, arch) = none := by
  have hne : loras.isEmpty = false := by
    cases loras with
    | nil => exact absurd rfl hloras
    | cons lw rest => rfl
  simp only [load_model_scope, hne]
  simp [lookup_model_erase_key]

/-- A local LoRA overlay reference. -/
def example_lora : LoraWeight := { path := "style.safetensors", scale := 1 }

/-- Witness for C4: with one overlay and a failing reversal, the entry that
was present in the cache at key `("model-a", "sd")` is gone afterwards. -/
theorem load_model_scope_teardown_failure_evicts_witness :
    ([example_lora] : List LoraWeight) ≠ []
      ∧ lookup_model
          (load_model_scope (α := Nat) id one_cuda_model "model-a" "sd" [example_lora]
            euler_capable_pipe (fun p => (.ok 0, p)) true).2.1
          ("model-a", "sd") = none :=
  ⟨by decide,
    load_model_scope_teardown_failure_evicts id one_cuda_model "model-a" "sd"
      [example_lora] euler_capable_pipe (fun p => (.ok 0, p)) (by decide)⟩

/-! ### Weight resolution: `download_to`, `download_model_if_needed`,
`get_model` -/

/-- `CHECKPOINTS_DIR` (runtime.py line 22). -/
def CHECKPOINTS_DIR : String := "/data/checkpoints"

/-- The download cache directory state: which download paths exist on disk,
and how many network transfers have been performed. -/
structure DLState where
  files : List String
  transfers : Nat
deriving DecidableEq, Repr

/-- Outcome of an attempted HTTP transfer of `url` (the urllib collaborator):
the request fails, the received size disagrees with the declared
content-length, or the transfer completes. -/
inductive NetResult where
  | httpError
  | sizeMismatch
  | okTransfer
deriving DecidableEq, Repr

/-- The content-addressed download path `download_to` uses (runtime.py lines
131-138): `CACHE_PREFIX` (the empty string) plus
`urlparse(url).path.split("/")[-1].strip(".").replace(".", "_")`, a dash, the
md5 hex digest of the url, all under `directory`, with the extension suffix
when one is given.  `up` models `urlparse(...).path` and `md5hex` the digest
(hashlib collaborator). -/
def download_path_for (up md5hex : String → String) (url directory : String)
    (extension : Option String) : String :=
  let url_file := replace_dots (strip_dots (last_path_component (up url)))
  let url_hash := md5hex url
  let download_path := directory ++ "/" ++ url_file ++ "-" ++ url_hash
  match extension with
  | some ext => path_with_suffix download_path ("." ++ ext)
  | none => download_path

/-- `GlobalRuntime.download_to` (runtime.py lines 115-172): reject `.ckpt`
urls (when an extension is requested), return the cached file if the
content-addressed path already exists, otherwise stream the resource
(`net url` decides the transfer's fate); only a complete, size-checked
download is published at the path. -/
def download_to (up md5hex : String → String) (net : String → NetResult)
    (url directory : String) (extension : Option String) (st : DLState) :
    Except PyErr (String × DLState) :=
  if extension.isSome && str_ends_with url ".ckpt" then
    .error cant_load_ckpt_error
  else
    let download_path := download_path_for up md5hex url directory extension
    if st.files.contains download_path then .ok (download_path, st)
    else
      match net url with
      | .httpError => .error (download_failed_error url)
      | .sizeMismatch => .error size_mismatch_error
      | .okTransfer => .ok (download_path, ⟨st.files ++ [download_path], st.transfers + 1⟩)

/-- `GlobalRuntime.download_model_if_needed` (runtime.py lines 98-104):
remote references are fetched via `download_to` with the `safetensors`
extension; anything else is returned unchanged. -/
def download_model_if_needed (up md5hex : String → String) (net : String → NetResult)
    (st : DLState) (model_name : String) : Except PyErr (String × DLState) :=
  if str_starts_with model_name "https://" || str_starts_with model_name "http://" then
    download_to up md5hex net model_name CHECKPOINTS_DIR (some "safetensors") st
  else .ok (model_name, st)

/-- `GlobalRuntime.get_model` (runtime.py lines 208-240): returns the cached
entry for `(model_name, arch)` or materialises a new pipeline — via
`from_single_file` when the name ends in `.ckpt` or `.safetensors`, via
`from_pretrained` otherwise — and inserts it. -/
def get_model (st : CacheState) (model_name arch : String) : CacheState × Model :=
  let model_key : ModelKey := (model_name, arch)
  match lookup_model st model_key with
  | some m => (st, m)
  | none =>
    let m : Model :=
      { device := "cpu", last_cache_hit := 0, pipeline := 0,
        source :=
          if str_ends_with model_name ".ckpt" || str_ends_with model_name ".safetensors"
          then .singleFile else .pretrained }
    (st ++ [(model_key, m)], m)

/-- C8 counterexample: a *local* `.ckpt` reference is not rejected anywhere:
`download_model_if_needed` passes it through untouched (it only guards remote
urls) and `get_model` happily loads it through the single-file loader,
inserting a cache entry — no error on either step, refuting "rejects it
outright ... regardless of whether the reference is a remote URL or a local
path". -/
theorem local_ckpt_is_loaded_not_rejected :
    download_model_if_needed id id (fun _ => .okTransfer) ⟨[], 0⟩ "model.ckpt" =
        .ok ("model.ckpt", ⟨[], 0⟩)
      ∧ (get_model [] "model.ckpt" "sd").2.source = PipeSource.singleFile
      ∧ lookup_model (get_model [] "model.ckpt" "sd").1 ("model.ckpt", "sd") =
          some { device := "cpu", last_cache_hit := 0, pipeline := 0,
                 source := PipeSource.singleFile } := by decide

/-- C8 (amended): a `.ckpt` weight reference is rejected with an error by the
download path — hence for every remote reference — while a local `.ckpt` path
is not rejected: `get_model` loads it via the single-file loader. -/
theorem ckpt_rejected_remote_loaded_local :
    (∀ (up md5hex : String → String) (net : String → NetResult)
        (url directory : String) (st : DLState),
        str_ends_with url ".ckpt" = true →
        download_to up md5hex net url directory (some "safetensors") st =
          .error cant_load_ckpt_error)
      ∧ ∀ (st : CacheState) (model_name arch : String),
          str_ends_with model_name ".ckpt" = true →
          lookup_model st (model_name, arch) = none →
          (get_model st model_name arch).2.source = PipeSource.singleFile := by
  constructor
  · intro up md5hex net url directory st h
    simp [download_to, h]
  · intro st model_name arch hend hlook
    simp [get_model, hlook, hend]

/-- Witness for the amended C8: the remote url `https://host/m.ckpt` is
rejected by `download_to`, and the local path `model.ckpt` is loaded as a
single-file pipeline. -/
theorem ckpt_rejected_remote_loaded_local_witness :
    (str_ends_with "https://host/m.ckpt" ".ckpt" = true
        ∧ download_to id id (fun _ => .okTransfer) "https://host/m.ckpt"
            CHECKPOINTS_DIR (some "safetensors") ⟨[], 0⟩ =
          .error cant_load_ckpt_error)
      ∧ lookup_model ([] : CacheState) ("model.ckpt", "sd") = none
      ∧ (get_model [] "model.ckpt" "sd").2.source = PipeSource.singleFile :=
  ⟨⟨by decide,
    ckpt_rejected_remote_loaded_local.1 id id (fun _ => .okTransfer)
      "https://host/m.ckpt" CHECKPOINTS_DIR ⟨[], 0⟩ (by decide)⟩,
   rfl,
   ckpt_rejected_remote_loaded_local.2 [] "model.ckpt" "sd" (by decide) rfl⟩

/-- C9: `download_to` is idempotent.  If a resolution returns a path, then
resolving the same url, directory and extension again returns the same path
and the same state — the content-addressed cache file produced (or found) by
the first call is hit, so no second transfer happens — and the first call
itself performed at most one transfer. -/
theorem download_to_idempotent (up md5hex : String → String) (net : String → NetResult)
    (url directory : String) (extension : Option String) (st st' : DLState) (p : String)
    (h : download_to up md5hex net url directory extension st = .ok (p, st')) :
    download_to up md5hex net url directory extension st' = .ok (p, st')
      ∧ st'.transfers ≤ st.transfers + 1 := by
  simp only [download_to] at h ⊢
  by_cases hck : (extension.isSome && str_ends_with url ".ckpt") = true
  · rw [if_pos hck] at h
    exact absurd h (by simp)
  · rw [if_neg hck] at h
    rw [if_neg hck]
    by_cases hc : st.files.contains (download_path_for up md5hex url directory extension) = true
    · rw [if_pos hc] at h
      injection h with h1
      injection h1 with hp hst
      subst hp
      subst hst
      rw [if_pos hc]
      exact ⟨rfl, Nat.le_succ _⟩
    · rw [if_neg hc] at h
      cases hnet : net url with
      | httpError => rw [hnet] at h; exact absurd h (by simp)
      | sizeMismatch => rw [hnet] at h; exact absurd h (by simp)
      | okTransfer =>
        rw [hnet] at h
        injection h with h1
        injection h1 with hp hst
        subst hp
        rw [← hst]
        have hc' : (st.files ++ [download_path_for up md5hex url directory extension]).contains
            (download_path_for up md5hex url directory extension) = true := by simp
        rw [if_pos hc']
        exact ⟨rfl, Nat.le_refl _⟩

/-- Witness for C9: a first resolution of `w` transfers once and publishes
`/d/w-h.safetensors`; the second resolution returns the same path and state
without a transfer. -/
theorem download_to_idempotent_witness :
    download_to id (fun _ => "h") (fun _ => .okTransfer) "w" "/d" (some "safetensors")
        ⟨[], 0⟩ = .ok ("/d/w-h.safetensors", ⟨["/d/w-h.safetensors"], 1⟩)
      ∧ (download_to id (fun _ => "h") (fun _ => .okTransfer) "w" "/d" (some "safetensors")
            ⟨["/d/w-h.safetensors"], 1⟩ =
          .ok ("/d/w-h.safetensors", ⟨["/d/w-h.safetensors"], 1⟩)
        ∧ (⟨["/d/w-h.safetensors"], 1⟩ : DLState).transfers ≤ (⟨[], 0⟩ : DLState).transfers + 1) :=
  ⟨by decide,
    download_to_idempotent id (fun _ => "h") (fun _ => .okTransfer) "w" "/d"
      (some "safetensors") ⟨[], 0⟩ ⟨["/d/w-h.safetensors"], 1⟩ "/d/w-h.safetensors"
      (by decide)⟩

/-! ### Seed handling in `generate_image` (model.py) -/

/-- The seed that `generate_image` uses and returns in the output's `seed`
field: `seed = input.seed or torch.seed()` (model.py line 244), passed to
`OutputParameters(..., seed=seed, ...)` (model.py line 272).  Python's `or`
takes the right operand when `input.seed` is `None` or `0` (both falsy);
`torch_seed` models the fresh value `torch.seed()` draws. -/
def generate_image_seed (input_seed : Option Int) (torch_seed : Int) : Int :=
  match input_seed with
  | none => torch_seed
  | some s => if s == 0 then torch_seed else s

/-- C10: when the input seed is `None` or `0`, the returned seed is the
freshly drawn `torch.seed()` value; a nonzero input seed is returned
unchanged. -/
theorem generate_image_seed_spec (torch_seed s : Int) (h : s ≠ 0) :
    generate_image_seed none torch_seed = torch_seed
      ∧ generate_image_seed (some 0) torch_seed = torch_seed
      ∧ generate_image_seed (some s) torch_seed = s := by
  refine ⟨rfl, rfl, ?_⟩
  simp [generate_image_seed, h]

/-- Witness for C10 at `torch_seed = 7`, input seed `5`. -/
theorem generate_image_seed_spec_witness :
    (5 : Int) ≠ 0
      ∧ generate_image_seed none 7 = 7
      ∧ generate_image_seed (some 0) 7 = 7
      ∧ generate_image_seed (some 5) 7 = 5 :=
  ⟨by decide, generate_image_seed_spec 7 5 (by decide)⟩

end TextToImage
